import Mathlib

/-!
Shallow embedding of the mach9 HTTP connection engine (`mach9/http.py`),
covering the `HttpProtocol` state machine: keep-alive computation, header
checking, response serialization (`send`, `make_header_content`,
`after_write`), the error path (`write_error`), size limits
(`data_received`, `on_header`), the idle timer (`connection_timeout`) and
drain support (`close_if_idle`).

Byte strings are modelled as lists of natural numbers (one per byte);
ASCII literals are produced from Lean strings.  Python exceptions are
modelled explicitly: the engine's own HTTP error conditions as `Exc`,
interpreter-level errors (unbound local, key/type/attribute errors) as
`PyError`.  Wall-clock times are integers passed explicitly where the
source reads a clock.
-/

set_option autoImplicit false

namespace Mach9

/-- A byte string: one natural number per byte. -/
abbrev Bytes := List Nat

/-- ASCII byte-string literal. -/
def strToBytes (s : String) : Bytes := s.data.map Char.toNat

/-- Bytes of `b"\r\n"`. -/
def crlf : Bytes := strToBytes "\r\n"

/-- Bytes of `b"Connection"`. -/
def bConnection : Bytes := strToBytes "Connection"

/-- Bytes of `b"close"`. -/
def bclose : Bytes := strToBytes "close"

/-- Bytes of `b"Content-Length"`. -/
def bContentLength : Bytes := strToBytes "Content-Length"

/-- Python `bytes.lower` on a single ASCII byte. -/
def lowerByte (c : Nat) : Nat := if 65 ≤ c ∧ c ≤ 90 then c + 32 else c

/-- Python `bytes.lower`: lower-cases the ASCII letters of a byte string. -/
def lowerBytes (bs : Bytes) : Bytes := bs.map lowerByte

/-- Decimal digits of `n`, most significant first (fuel-driven helper). -/
def natToDecAux : Nat → Nat → List Nat
  | 0, _ => []
  | fuel + 1, n =>
    if n < 10 then [48 + n] else natToDecAux fuel (n / 10) ++ [48 + n % 10]

/-- Python `str(n).encode()`: the decimal ASCII bytes of a natural number. -/
def natToDecBytes (n : Nat) : Bytes := natToDecAux (n + 1) n

/-- One lower-case hexadecimal ASCII digit. -/
def hexDigit (d : Nat) : Nat := if d < 10 then 48 + d else 87 + d

/-- Hexadecimal digits of `n`, most significant first (fuel-driven helper). -/
def natToHexAux : Nat → Nat → List Nat
  | 0, _ => []
  | fuel + 1, n =>
    if n < 16 then [hexDigit n] else natToHexAux fuel (n / 16) ++ [hexDigit (n % 16)]

/-- Python `b"%x" % n`: the lower-case hexadecimal ASCII bytes of a natural number. -/
def natToHexBytes (n : Nat) : Bytes := natToHexAux (n + 1) n

/-- Python `int(value)` for a byte string of decimal digits (the only inputs the
engine feeds it on the paths modelled here). -/
def bytesToNat (bs : Bytes) : Nat := bs.foldl (fun acc c => acc * 10 + (c - 48)) 0

/-- Result of `HttpProtocol.check_headers`. -/
structure ResultHeaders where
  connection_close : Bool
  content_length : Bool
deriving DecidableEq

/-- One iteration of the loop in `HttpProtocol.check_headers`: the two
independent `if` statements of the source body. -/
def check_headers_step (r : ResultHeaders) (kv : Bytes × Bytes) : ResultHeaders :=
  let r := if kv.1 = bConnection ∧ kv.2 = bclose then
    { r with connection_close := true } else r
  if kv.1 = bContentLength then { r with content_length := true } else r

/-- Source `HttpProtocol.check_headers`: scans a header list for `Connection: close`
and for the presence of `Content-Length`, both by exact byte equality. -/
def check_headers (headers : List (Bytes × Bytes)) : ResultHeaders :=
  headers.foldl check_headers_step { connection_close := false, content_length := false }

theorem check_headers_step_connection_close (r : ResultHeaders) (kv : Bytes × Bytes) :
    (check_headers_step r kv).connection_close
      = (r.connection_close || decide (kv.1 = bConnection ∧ kv.2 = bclose)) := by
  unfold check_headers_step
  split <;> split <;> simp_all

theorem check_headers_step_content_length (r : ResultHeaders) (kv : Bytes × Bytes) :
    (check_headers_step r kv).content_length
      = (r.content_length || decide (kv.1 = bContentLength)) := by
  unfold check_headers_step
  split <;> split <;> simp_all

theorem check_headers_foldl (hs : List (Bytes × Bytes)) (r : ResultHeaders) :
    (hs.foldl check_headers_step r).connection_close
      = (r.connection_close || hs.any fun kv => decide (kv.1 = bConnection ∧ kv.2 = bclose)) ∧
    (hs.foldl check_headers_step r).content_length
      = (r.content_length || hs.any fun kv => decide (kv.1 = bContentLength)) := by
  induction hs generalizing r with
  | nil => simp
  | cons kv t ih =>
    simp only [List.foldl_cons, List.any_cons]
    rcases ih (check_headers_step r kv) with ⟨h1, h2⟩
    rw [h1, h2, check_headers_step_connection_close, check_headers_step_content_length]
    constructor <;> simp [Bool.or_assoc]

theorem check_headers_connection_close_iff (hs : List (Bytes × Bytes)) :
    (check_headers hs).connection_close = true
      ↔ ∃ kv ∈ hs, kv.1 = bConnection ∧ kv.2 = bclose := by
  rw [check_headers, (check_headers_foldl hs _).1]
  simp [List.any_eq_true]

theorem check_headers_content_length_iff (hs : List (Bytes × Bytes)) :
    (check_headers hs).content_length = true ↔ ∃ kv ∈ hs, kv.1 = bContentLength := by
  rw [check_headers, (check_headers_foldl hs _).2]
  simp [List.any_eq_true]

/-- The engine's own HTTP error conditions (`mach9/exceptions.py`), as routed
to `write_error`. -/
inductive Exc where
  | requestTimeout
  | payloadTooLarge
  | invalidUsage
  | serverError
deriving DecidableEq

/-- Python interpreter-level errors that the source can raise on the modelled
paths. -/
inductive PyError where
  | unboundLocal
  | keyError
  | typeError
  | attributeError
deriving DecidableEq

/-- The asyncio transport, reduced to what the engine observes of it: the
sequence of `write` calls and whether `close` has been called. -/
structure Transport where
  written : List Bytes
  closed : Bool
deriving DecidableEq

/-- Source `transport.write(data)`. -/
def Transport.write (t : Transport) (data : Bytes) : Transport :=
  { t with written := t.written ++ [data] }

/-- Source `transport.close()`. -/
def Transport.close (t : Transport) : Transport := { t with closed := true }

/-- An asyncio task slot (`_request_stream_task` / `_request_handler_task`):
either absent (`None`), running, or cancelled. -/
inductive TaskState where
  | noTask
  | running
  | cancelled
deriving DecidableEq

/-- The per-connection state of `HttpProtocol` (the attributes the modelled
methods read or write).  `parser_active` stands for `self.parser is not None`;
`parser_should_keep_alive` is the value `self.parser.should_keep_alive()`
would return while a parser is active (it is only consulted under
`parser_active`).  `headers` is `none` while `self.headers` is `None` (as
after `cleanup`), `some` the accumulated list otherwise.  `body_channel` and
`message` record whether those attributes currently hold an object
(`is not None`).  The two `..._cancel_calls` fields are effect logs, like
`Transport.written`: they count the `.cancel()` calls issued to the external
task objects (the slot fields only hold the references, which `cleanup`
nulls). -/
structure HttpProtocol where
  transport : Transport
  keep_alive_flag : Bool            -- self._keep_alive
  signal_stopped : Bool             -- self.signal.stopped
  parser_active : Bool              -- self.parser is not None
  parser_should_keep_alive : Bool   -- self.parser.should_keep_alive()
  is_upgrade : Bool                 -- self._is_upgrade
  url : Option Bytes                -- self.url
  headers : Option (List (Bytes × Bytes))  -- self.headers (request headers)
  total_request_size : Nat          -- self._total_request_size
  request_max_size : Nat            -- self.request_max_size
  request_timeout : Nat             -- self.request_timeout
  last_request_time : Int           -- self._last_request_time
  request_stream_task : TaskState   -- self._request_stream_task
  request_handler_task : TaskState  -- self._request_handler_task
  stream_task_cancel_calls : Nat    -- cancel() calls on _request_stream_task
  handler_task_cancel_calls : Nat   -- cancel() calls on _request_handler_task
  body_channel : Bool               -- self.body_channel is not None
  message : Bool                    -- self.message is not None
  errors : List Exc                 -- log of exceptions routed to write_error
deriving DecidableEq

/-- Source `HttpProtocol.keep_alive` (the property): conjunction of the persistent
`_keep_alive` flag, the shared signal not being stopped, an active parser,
and the parser's own keep-alive negotiation. -/
def HttpProtocol.keep_alive (s : HttpProtocol) : Bool :=
  s.keep_alive_flag && !s.signal_stopped && s.parser_active && s.parser_should_keep_alive

/-- Source `HttpProtocol.cleanup`: resets the per-request state after a fully
flushed keep-alive response. -/
def HttpProtocol.cleanup (s : HttpProtocol) : HttpProtocol :=
  { s with parser_active := false, url := none, headers := none,
           request_handler_task := .noTask, request_stream_task := .noTask,
           total_request_size := 0, body_channel := false, message := false }

/-- Source `HttpProtocol.after_write`: at a terminal write, close the transport when
not keeping alive, otherwise refresh the idle clock and reset per-request
state; on non-terminal writes do nothing.  `now` is the value
`self.get_current_time()` returns at this call. -/
def HttpProtocol.after_write (s : HttpProtocol) (more_content keep_alive : Bool)
    (now : Int) : HttpProtocol :=
  if !more_content && !keep_alive then
    { s with transport := s.transport.close }
  else if !more_content && keep_alive then
    HttpProtocol.cleanup { s with last_request_time := now }
  else s

/-- Outcome of the `try` body of `HttpProtocol.write_error` (building the
error response via the external `error_handler` and sending it): it either
succeeds, raises `RuntimeError` (connection lost mid-write), or raises some
other exception. -/
inductive SendOutcome where
  | success
  | runtimeError
  | otherError
deriving DecidableEq

/-- A response / response-chunk message as consumed by `HttpProtocol.send`:
a dict whose relevant keys are read with `.get`, so each key is optional
(`more_content` defaults to `False`). -/
structure Message where
  status : Option Nat
  headers : Option (List (Bytes × Bytes))
  content : Option Bytes
  more_content : Bool
deriving DecidableEq

/-- Source `HttpProtocol.is_response_chunk`: neither a `status` nor a `headers` key. -/
def is_response_chunk (m : Message) : Bool := m.status.isNone && m.headers.isNone

/-- The `ALL_STATUS_CODES` dict of `mach9/response.py` (used by `send` for
the reason-phrase lookup; a missing key raises `KeyError`). -/
def ALL_STATUS_CODES : List (Nat × Bytes) := [
  (100, strToBytes "Continue"),
  (101, strToBytes "Switching Protocols"),
  (102, strToBytes "Processing"),
  (200, strToBytes "OK"),
  (201, strToBytes "Created"),
  (202, strToBytes "Accepted"),
  (203, strToBytes "Non-Authoritative Information"),
  (204, strToBytes "No Content"),
  (205, strToBytes "Reset Content"),
  (206, strToBytes "Partial Content"),
  (207, strToBytes "Multi-Status"),
  (208, strToBytes "Already Reported"),
  (226, strToBytes "IM Used"),
  (300, strToBytes "Multiple Choices"),
  (301, strToBytes "Moved Permanently"),
  (302, strToBytes "Found"),
  (303, strToBytes "See Other"),
  (304, strToBytes "Not Modified"),
  (305, strToBytes "Use Proxy"),
  (307, strToBytes "Temporary Redirect"),
  (308, strToBytes "Permanent Redirect"),
  (400, strToBytes "Bad Request"),
  (401, strToBytes "Unauthorized"),
  (402, strToBytes "Payment Required"),
  (403, strToBytes "Forbidden"),
  (404, strToBytes "Not Found"),
  (405, strToBytes "Method Not Allowed"),
  (406, strToBytes "Not Acceptable"),
  (407, strToBytes "Proxy Authentication Required"),
  (408, strToBytes "Request Timeout"),
  (409, strToBytes "Conflict"),
  (410, strToBytes "Gone"),
  (411, strToBytes "Length Required"),
  (412, strToBytes "Precondition Failed"),
  (413, strToBytes "Request Entity Too Large"),
  (414, strToBytes "Request-URI Too Long"),
  (415, strToBytes "Unsupported Media Type"),
  (416, strToBytes "Requested Range Not Satisfiable"),
  (417, strToBytes "Expectation Failed"),
  (422, strToBytes "Unprocessable Entity"),
  (423, strToBytes "Locked"),
  (424, strToBytes "Failed Dependency"),
  (426, strToBytes "Upgrade Required"),
  (428, strToBytes "Precondition Required"),
  (429, strToBytes "Too Many Requests"),
  (431, strToBytes "Request Header Fields Too Large"),
  (500, strToBytes "Internal Server Error"),
  (501, strToBytes "Not Implemented"),
  (502, strToBytes "Bad Gateway"),
  (503, strToBytes "Service Unavailable"),
  (504, strToBytes "Gateway Timeout"),
  (505, strToBytes "HTTP Version Not Supported"),
  (506, strToBytes "Variant Also Negotiates"),
  (507, strToBytes "Insufficient Storage"),
  (508, strToBytes "Loop Detected"),
  (510, strToBytes "Not Extended"),
  (511, strToBytes "Network Authentication Required")]

/-- One serialized header line `key: value\r\n` of the loop in
`make_header_content`. -/
def serializeHeaderEntry (kv : Bytes × Bytes) : Bytes :=
  kv.1 ++ strToBytes ": " ++ kv.2 ++ crlf

/-- Source `HttpProtocol.make_header_content`: `b''` when the message carried no
`headers` key; otherwise an engine-computed `Content-Length` line (when the
write is terminal and the caller supplied none) followed by the caller's
headers verbatim, except `Connection`, which is skipped.  `str(len(content))`
raises `TypeError` when the message carried no `content` key. -/
def make_header_content (headers : Option (List (Bytes × Bytes)))
    (result_headers : ResultHeaders) (content : Option Bytes)
    (more_content : Bool) : Except PyError Bytes :=
  match headers with
  | none => .ok []
  | some hs =>
    let lenPart : Except PyError Bytes :=
      if !more_content && !result_headers.content_length then
        match content with
        | none => .error .typeError
        | some c => .ok (strToBytes "Content-Length: " ++ natToDecBytes c.length ++ crlf)
      else .ok []
    match lenPart with
    | .error e => .error e
    | .ok lenBytes =>
      .ok (lenBytes ++
        ((hs.filter fun kv => kv.1 ≠ bConnection).map serializeHeaderEntry).flatten)

/-- Source `HttpProtocol.send`.  Returns the successor state and, when the source
would raise, the interpreter-level error (state reflects all side effects
performed before the raise).  `now` is the clock value read by `after_write`.
In the source the Python local `result_headers` is only bound inside the
`if headers is not None` branch, yet read unconditionally on the
non-chunk path: that read raises `UnboundLocalError` when the message had a
`status` but no `headers` key.  The `Keep-Alive` hint's
`keep_alive_timeout is not None` guard is always true here because
`request_timeout` is modelled as a number, as it is in every configuration
of the source. -/
def HttpProtocol.send (s : HttpProtocol) (m : Message) (now : Int) :
    HttpProtocol × Option PyError :=
  let headers := m.headers
  let content := m.content
  let more_content := m.more_content
  let sr : HttpProtocol × Option ResultHeaders :=
    match headers with
    | some hs =>
      let rh := check_headers hs
      (if rh.connection_close = true then { s with keep_alive_flag := false } else s,
       some rh)
    | none => (s, none)
  let s := sr.1
  let result_headers := sr.2
  let keep_alive := s.keep_alive
  if is_response_chunk m then
    match content with
    | none => (s, some .typeError)
    | some c =>
      if more_content && c.length > 0 then
        let s := { s with transport :=
          s.transport.write (natToHexBytes c.length ++ crlf ++ c ++ crlf) }
        (s.after_write more_content keep_alive now, none)
      else if more_content = false then
        let s := { s with transport := s.transport.write (strToBytes "0\r\n\r\n") }
        (s.after_write more_content keep_alive now, none)
      else (s, none)
  else
    let timeout_header : Bytes :=
      if keep_alive then
        strToBytes "Keep-Alive: " ++ natToDecBytes s.request_timeout ++ crlf
      else []
    match result_headers with
    | none => (s, some .unboundLocal)
    | some rh =>
      match make_header_content headers rh content more_content with
      | .error e => (s, some e)
      | .ok header_content =>
        match m.status with
        | none => (s, some .keyError)
        | some st =>
          match ALL_STATUS_CODES.lookup st with
          | none => (s, some .keyError)
          | some statusBytes =>
            match content with
            | none => (s, some .typeError)
            | some c =>
              let response :=
                strToBytes "HTTP/1.1 " ++ natToDecBytes st ++ strToBytes " "
                  ++ statusBytes ++ crlf
                  ++ strToBytes "Connection: "
                  ++ (if keep_alive then strToBytes "keep-alive" else strToBytes "close")
                  ++ crlf
                  ++ timeout_header
                  ++ header_content ++ crlf
                  ++ c
              let s := { s with transport := s.transport.write response }
              (s.after_write more_content keep_alive now, none)

/-- The response object produced by the external
`error_handler.response(request, exception)` collaborator: what `write_error`
needs of `mach9/response.py`'s `HTTPResponse` (status, parsed header list,
body bytes). -/
structure HTTPResponse where
  status : Nat
  headers : List (Bytes × Bytes)
  body : Bytes
deriving DecidableEq

/-- Source `HTTPResponse.get_message` (`mach9/response.py`): the message a
response object yields for `send`. -/
def HTTPResponse.get_message (r : HTTPResponse) (more_content : Bool) : Message :=
  { status := some r.status, headers := some r.headers, content := some r.body,
    more_content := more_content }

/-- Source `HttpProtocol.write_error`: routes an exception to the
error-response path.  The external part of the `try` body — building
`response` via `error_handler.response(...)` and the logging — is abstracted
by `response` (its result) and `outcome` (whether the body completes or
raises); the internal `self.send(response.get_message(False))` is the
modelled `send`, run for real on the success path, so a keep-alive error
write performs `after_write` → `cleanup` exactly as the source does.  The
exception routed is appended to the `errors` log.  On `RuntimeError` the
handler itself reads `self.request`, an attribute that is never assigned, so
an `AttributeError` escapes `write_error`; on any other exception
`bail_out(..., from_error=True)` only logs.  The `finally` clause closes the
transport on every path.  `wnow` is the clock value the error-response send
would read. -/
def HttpProtocol.write_error (s : HttpProtocol) (exc : Exc) (outcome : SendOutcome)
    (response : HTTPResponse) (wnow : Int) : HttpProtocol × Option PyError :=
  let s := { s with errors := s.errors ++ [exc] }
  match outcome with
  | .success =>
    let s := (s.send (response.get_message false) wnow).1
    ({ s with transport := s.transport.close }, none)
  | .runtimeError =>
    ({ s with transport := s.transport.close }, some .attributeError)
  | .otherError =>
    ({ s with transport := s.transport.close }, none)

theorem after_write_preserves_logs (s : HttpProtocol) (mc ka : Bool) (now : Int) :
    (s.after_write mc ka now).errors = s.errors ∧
    (s.after_write mc ka now).stream_task_cancel_calls = s.stream_task_cancel_calls ∧
    (s.after_write mc ka now).handler_task_cancel_calls = s.handler_task_cancel_calls := by
  unfold HttpProtocol.after_write HttpProtocol.cleanup
  split
  · simp
  · split <;> simp

theorem send_preserves_logs (s : HttpProtocol) (m : Message) (now : Int) :
    ((s.send m now).1).errors = s.errors ∧
    ((s.send m now).1).stream_task_cancel_calls = s.stream_task_cancel_calls ∧
    ((s.send m now).1).handler_task_cancel_calls = s.handler_task_cancel_calls := by
  obtain ⟨st, hd, ct, mc⟩ := m
  cases st <;> cases hd <;> cases ct <;>
    simp only [HttpProtocol.send, is_response_chunk, Option.isNone_none,
      Option.isNone_some, Bool.and_true, Bool.and_false, Bool.true_and,
      Bool.false_and, make_header_content] <;>
    repeat' split <;>
    try simp_all [after_write_preserves_logs, Transport.write]

/-- Source `HttpProtocol.data_received`, up to the hand-off to the external
`httptools` parser: add the chunk's length to the running byte counter and,
when it exceeds the configured ceiling, route `PayloadTooLarge` through
`write_error` (the source does not return there, so when `write_error` does
not raise, the lazy parser creation that follows still runs; when it does
raise, the exception propagates out of `data_received`); the final
`self.parser.feed_data(data)` call drives the external C parser's callbacks
and is not modelled.  `outcome` / `response` / `wnow` parameterize the
`write_error` call as above. -/
def HttpProtocol.data_received (s : HttpProtocol) (dataLen : Nat)
    (outcome : SendOutcome) (response : HTTPResponse) (wnow : Int) :
    HttpProtocol × Option PyError :=
  let s := { s with total_request_size := s.total_request_size + dataLen }
  let res : HttpProtocol × Option PyError :=
    if s.total_request_size > s.request_max_size then
      s.write_error .payloadTooLarge outcome response wnow
    else (s, none)
  match res.2 with
  | some e => (res.1, some e)
  | none =>
    let s := res.1
    if s.parser_active = false then
      ({ s with headers := some [], parser_active := true }, none)
    else (s, none)

/-- Bytes of `b"content-length"`. -/
def bContentLengthLC : Bytes := strToBytes "content-length"

/-- Bytes of `b"upgrade"`. -/
def bUpgradeLC : Bytes := strToBytes "upgrade"

/-- Source `HttpProtocol.on_header`: the parser's header callback.  The name
is rebound to its lower-cased form; a declared `Content-Length` beyond the
ceiling routes `PayloadTooLarge` through `write_error` (the source does not
return there; an exception escaping `write_error` propagates out of
`on_header`); an `upgrade` header sets the upgrade flag; finally the
(lower-cased name, verbatim value) pair is appended to `self.headers` — which
raises `AttributeError` when that attribute is `None`, as it is after a
successful keep-alive error write ran `cleanup` inside `write_error`. -/
def HttpProtocol.on_header (s : HttpProtocol) (name value : Bytes)
    (outcome : SendOutcome) (response : HTTPResponse) (wnow : Int) :
    HttpProtocol × Option PyError :=
  let name := lowerBytes name
  let res : HttpProtocol × Option PyError :=
    if name = bContentLengthLC ∧ bytesToNat value > s.request_max_size then
      s.write_error .payloadTooLarge outcome response wnow
    else (s, none)
  match res.2 with
  | some e => (res.1, some e)
  | none =>
    let s := res.1
    let s := if name = bUpgradeLC then { s with is_upgrade := true } else s
    match s.headers with
    | none => (s, some .attributeError)
    | some hl => ({ s with headers := some (hl ++ [(name, value)]) }, none)

/-- What one firing of the timeout handler decides: re-arm the timer for a
remaining delta (`loop.call_later(time_left, ...)`), or escalate to the
timeout path. -/
inductive TimerAction where
  | rearmed (delay : Int)
  | timedOut
deriving DecidableEq

/-- Source `HttpProtocol.connection_timeout`: one firing of the per-connection
timer.  `now` is the value `self.get_current_time()` returns.  Under the
limit, re-arm for exactly the remaining delta and change nothing else; at or
over the limit, call `.cancel()` on whichever of the stream/handler tasks
exist (recorded in the cancel-call effect logs; the slots themselves may be
nulled again by a `cleanup` inside the error write) and route a
`RequestTimeout` through `write_error`, whose escaping exception, if any,
propagates out of the handler. -/
def HttpProtocol.connection_timeout (s : HttpProtocol) (now : Int)
    (outcome : SendOutcome) (response : HTTPResponse) (wnow : Int) :
    HttpProtocol × TimerAction × Option PyError :=
  let time_elapsed := now - s.last_request_time
  if time_elapsed < (s.request_timeout : Int) then
    (s, .rearmed ((s.request_timeout : Int) - time_elapsed), none)
  else
    let s := match s.request_stream_task with
      | .noTask => s
      | _ => { s with request_stream_task := .cancelled,
                      stream_task_cancel_calls := s.stream_task_cancel_calls + 1 }
    let s := match s.request_handler_task with
      | .noTask => s
      | _ => { s with request_handler_task := .cancelled,
                      handler_task_cancel_calls := s.handler_task_cancel_calls + 1 }
    let we := s.write_error .requestTimeout outcome response wnow
    (we.1, .timedOut, we.2)

/-- Source `HttpProtocol.close_if_idle`: with no active parser, close the transport
and report `True`; otherwise leave everything as it is and report `False`. -/
def HttpProtocol.close_if_idle (s : HttpProtocol) : HttpProtocol × Bool :=
  if s.parser_active = false then
    ({ s with transport := s.transport.close }, true)
  else (s, false)

/-- A connection mid-request: open transport, active parser negotiating
keep-alive, no stop signal, keep-alive enabled, empty logs. -/
def baseState : HttpProtocol :=
  { transport := { written := [], closed := false },
    keep_alive_flag := true, signal_stopped := false,
    parser_active := true, parser_should_keep_alive := true,
    is_upgrade := false, url := none, headers := some [],
    total_request_size := 0, request_max_size := 100000,
    request_timeout := 60, last_request_time := 0,
    request_stream_task := .noTask, request_handler_task := .noTask,
    stream_task_cancel_calls := 0, handler_task_cancel_calls := 0,
    body_channel := false, message := false, errors := [] }

/-- A minimal error response, standing for the output of the external error
handler. -/
def errResponse : HTTPResponse :=
  { status := 500,
    headers := [(strToBytes "Content-Type", strToBytes "text/plain")],
    body := strToBytes "Error" }

/-- A connection between requests: `baseState` after `cleanup` (no parser). -/
def idleState : HttpProtocol := HttpProtocol.cleanup baseState

/-- Variant of `baseState` with both the body-forwarding and request-handler tasks in
flight. -/
def busyState : HttpProtocol :=
  { baseState with request_stream_task := .running, request_handler_task := .running }

/-- Variant of `baseState` with the persistent `_keep_alive` flag off (keep-alive
disabled in configuration, or revoked by an earlier response). -/
def noKeepAliveState : HttpProtocol := { baseState with keep_alive_flag := false }

/-- A terminal `200` response message with empty headers and empty content. -/
def okEmptyMsg : Message :=
  { status := some 200, headers := some [], content := some [], more_content := false }

/-- Variant of `baseState` with a tiny request-size ceiling. -/
def smallMaxState : HttpProtocol := { baseState with request_max_size := 5 }

/-- A non-empty intermediate response chunk. -/
def chunkHi : Message :=
  { status := none, headers := none, content := some (strToBytes "hi"),
    more_content := true }

/-- An empty intermediate response chunk. -/
def chunkEmpty : Message :=
  { status := none, headers := none, content := some [], more_content := true }

/-- A terminal response chunk. -/
def chunkFinal : Message :=
  { status := none, headers := none, content := some (strToBytes "hi"),
    more_content := false }

/-- Sanity check of the serializer on a complete keep-alive response. -/
theorem send_serialization_sample :
    (baseState.send
      { status := some 200, headers := some [], content := some (strToBytes "ok"),
        more_content := false } 5).1.transport.written
    = [strToBytes
        "HTTP/1.1 200 OK\r\nConnection: keep-alive\r\nKeep-Alive: 60\r\nContent-Length: 2\r\n\r\nok"] := by
  decide

/-- C2: `check_headers` reports `connection_close = true` iff some entry has
name exactly `Connection` and value exactly `close`, and
`content_length = true` iff some entry has name exactly `Content-Length`;
near-miss names (`_Connection`) and differently-cased variants
(`connection`, `content-length`) never match. -/
theorem check_headers_exact_match (hs : List (Bytes × Bytes)) :
    ((check_headers hs).connection_close = true
      ↔ ∃ kv ∈ hs, kv.1 = bConnection ∧ kv.2 = bclose) ∧
    ((check_headers hs).content_length = true ↔ ∃ kv ∈ hs, kv.1 = bContentLength) ∧
    check_headers [(strToBytes "_Connection", bclose)]
      = { connection_close := false, content_length := false } ∧
    check_headers [(strToBytes "connection", bclose),
                   (strToBytes "content-length", strToBytes "3")]
      = { connection_close := false, content_length := false } :=
  ⟨check_headers_connection_close_iff hs, check_headers_content_length_iff hs,
   by decide, by decide⟩

/-- C8: `close_if_idle` on a connection with no active parser closes the
transport and returns true; with an active parser it changes nothing
(leaving the transport open) and returns false. -/
theorem close_if_idle_spec (s : HttpProtocol) :
    (s.parser_active = false →
      s.close_if_idle = ({ s with transport := s.transport.close }, true)) ∧
    (s.parser_active = true → s.close_if_idle = (s, false)) := by
  constructor <;> intro h <;> simp [HttpProtocol.close_if_idle, h]

/-- Witness for `close_if_idle_spec` at concrete idle and busy connections. -/
theorem close_if_idle_spec_witness :
    (idleState.close_if_idle
      = ({ idleState with transport := idleState.transport.close }, true)) ∧
    (baseState.close_if_idle = (baseState, false)) :=
  ⟨(close_if_idle_spec idleState).1 rfl, (close_if_idle_spec baseState).2 rfl⟩

/-- C9: every invocation of `write_error` — successful send of the error
response (including the case where that send negotiated keep-alive and ran
`cleanup`), `RuntimeError` from the send, or any other exception — leaves the
transport closed (the `finally` clause), so no connection is kept alive after
an error response. -/
theorem write_error_always_closes (s : HttpProtocol) (exc : Exc)
    (o : SendOutcome) (r : HTTPResponse) (wnow : Int) :
    (s.write_error exc o r wnow).1.transport.closed = true := by
  cases o <;> simp [HttpProtocol.write_error, Transport.close]

/-- C10: a message with a `status` key but no `headers` key makes `send`
raise (the `result_headers` local is read but was never bound), with no state
change and nothing written to the wire. -/
theorem send_status_without_headers_raises (s : HttpProtocol) (m : Message)
    (now : Int) (st : Nat) (hst : m.status = some st) (hh : m.headers = none) :
    s.send m now = (s, some .unboundLocal) := by
  unfold HttpProtocol.send
  simp [hh, is_response_chunk, hst]

/-- Witness for `send_status_without_headers_raises` at a concrete message. -/
theorem send_status_without_headers_raises_witness :
    baseState.send
      { status := some 200, headers := none, content := some [], more_content := false } 0
      = (baseState, some .unboundLocal) :=
  send_status_without_headers_raises baseState _ 0 200 rfl rfl

/-- C3 (counterexample): the stored header list does not preserve the name's
original case — parsing a `Content-Type` header stores the lower-cased name
`content-type`, which differs from the original bytes. -/
theorem on_header_lowercases_stored_name :
    (baseState.on_header (strToBytes "Content-Type") (strToBytes "text/plain")
        .success errResponse 0).1.headers
      = some [(strToBytes "content-type", strToBytes "text/plain")] ∧
    strToBytes "content-type" ≠ strToBytes "Content-Type" := by
  decide

/-- C3 (amended): `on_header` lower-cases the name and uses the lower-cased
form both for its comparisons (content-length ceiling, upgrade detection) and
in the stored entry; only the value is kept verbatim.  When the
content-length ceiling check does not fire, the entry (lower-cased name,
verbatim value) is appended to the live header list; and whenever `on_header`
completes without raising, the stored list ends with that lower-cased entry.
(After a mid-callback error write whose successful keep-alive send ran
`cleanup`, the list is `None` and the append raises instead.) -/
theorem on_header_appends_lowercased (s : HttpProtocol) (name value : Bytes)
    (o : SendOutcome) (r : HTTPResponse) (wnow : Int) :
    (∀ hl, ¬(lowerBytes name = bContentLengthLC ∧
             bytesToNat value > s.request_max_size) →
       s.headers = some hl →
       s.on_header name value o r wnow
         = ({ s with
               is_upgrade := if lowerBytes name = bUpgradeLC then true else s.is_upgrade,
               headers := some (hl ++ [(lowerBytes name, value)]) }, none)) ∧
    ((s.on_header name value o r wnow).2 = none →
       ∃ hl, (s.on_header name value o r wnow).1.headers
         = some (hl ++ [(lowerBytes name, value)])) := by
  constructor
  · intro hl h1 h2
    have h4 : ¬(bUpgradeLC = bContentLengthLC) := by decide
    by_cases h3 : lowerBytes name = bUpgradeLC <;>
      simp [HttpProtocol.on_header, h1, h2, h3, h4]
  · intro hok
    unfold HttpProtocol.on_header at hok ⊢
    by_cases h1 : lowerBytes name = bContentLengthLC ∧
        bytesToNat value > s.request_max_size
    · simp only [h1, if_pos, if_neg, not_false_iff] at hok ⊢
      split at hok
      · simp_all
      · split at hok <;> simp_all
    · simp only [h1, if_pos, if_neg, not_false_iff] at hok ⊢
      split at hok
      · simp_all
      · split at hok <;> simp_all

/-- Witness for `on_header_appends_lowercased`: a `Content-Type` header on a
live connection. -/
theorem on_header_appends_lowercased_witness :
    (baseState.on_header (strToBytes "Content-Type") (strToBytes "text/plain")
        .success errResponse 0
      = ({ baseState with
            is_upgrade := if lowerBytes (strToBytes "Content-Type") = bUpgradeLC then true
              else baseState.is_upgrade,
            headers := some ([] ++ [(lowerBytes (strToBytes "Content-Type"),
                                     strToBytes "text/plain")]) }, none)) ∧
    (∃ hl, (baseState.on_header (strToBytes "Content-Type") (strToBytes "text/plain")
        .success errResponse 0).1.headers
      = some (hl ++ [(lowerBytes (strToBytes "Content-Type"),
                      strToBytes "text/plain")])) :=
  ⟨(on_header_appends_lowercased baseState (strToBytes "Content-Type")
      (strToBytes "text/plain") .success errResponse 0).1 [] (by decide) rfl,
   (on_header_appends_lowercased baseState (strToBytes "Content-Type")
      (strToBytes "text/plain") .success errResponse 0).2 (by decide)⟩

/-- C4: whenever the cumulative byte count of a connection exceeds the
request-size ceiling (regardless of any content-length), or a parsed
`Content-Length` header's value exceeds that ceiling, `PayloadTooLarge` is
routed through `write_error` at once — which also closes the transport —
without waiting for the full request. -/
theorem payload_too_large_fires (s : HttpProtocol) (dataLen : Nat)
    (name value : Bytes) (o : SendOutcome) (r : HTTPResponse) (wnow : Int) :
    (s.total_request_size + dataLen > s.request_max_size →
      Exc.payloadTooLarge ∈ (s.data_received dataLen o r wnow).1.errors ∧
      (s.data_received dataLen o r wnow).1.transport.closed = true) ∧
    (lowerBytes name = bContentLengthLC → bytesToNat value > s.request_max_size →
      Exc.payloadTooLarge ∈ (s.on_header name value o r wnow).1.errors ∧
      (s.on_header name value o r wnow).1.transport.closed = true) := by
  constructor
  · intro h
    cases o <;>
      simp [HttpProtocol.data_received, HttpProtocol.write_error, Transport.close,
            send_preserves_logs, h] <;>
      repeat' split <;> simp_all [send_preserves_logs]
  · intro h1 h2
    cases o <;>
      simp [HttpProtocol.on_header, HttpProtocol.write_error, Transport.close,
            send_preserves_logs, h1, h2] <;>
      repeat' split <;> simp_all [send_preserves_logs]

/-- Witness for `payload_too_large_fires`: a 10-byte chunk against a 5-byte
ceiling, and a declared `Content-Length: 99` against the same ceiling. -/
theorem payload_too_large_fires_witness :
    (Exc.payloadTooLarge ∈ (smallMaxState.data_received 10 .success errResponse 0).1.errors ∧
     (smallMaxState.data_received 10 .success errResponse 0).1.transport.closed = true) ∧
    (Exc.payloadTooLarge ∈
        (smallMaxState.on_header (strToBytes "Content-Length") (strToBytes "99")
          .success errResponse 0).1.errors ∧
     (smallMaxState.on_header (strToBytes "Content-Length") (strToBytes "99")
        .success errResponse 0).1.transport.closed = true) :=
  ⟨(payload_too_large_fires smallMaxState 10 (strToBytes "Content-Length")
      (strToBytes "99") .success errResponse 0).1 (by decide),
   (payload_too_large_fires smallMaxState 10 (strToBytes "Content-Length")
      (strToBytes "99") .success errResponse 0).2 (by decide) (by decide)⟩

/-- C5: when a terminal message's headers omit `Content-Length`, the header
block built by `make_header_content` (fed the `check_headers` result, as in
`send`) begins with an engine-emitted `Content-Length` line whose value is
the decimal length of the message's content bytes. -/
theorem make_header_content_emits_content_length (hs : List (Bytes × Bytes)) (c : Bytes)
    (h : ∀ kv ∈ hs, kv.1 ≠ bContentLength) :
    ∃ rest : Bytes,
      make_header_content (some hs) (check_headers hs) (some c) false
        = .ok (strToBytes "Content-Length: " ++ natToDecBytes c.length ++ crlf ++ rest) := by
  have hcl : (check_headers hs).content_length = false := by
    rw [← Bool.not_eq_true, check_headers_content_length_iff]
    rintro ⟨kv, hmem, hkv⟩
    exact h kv hmem hkv
  refine ⟨((hs.filter fun kv => kv.1 ≠ bConnection).map serializeHeaderEntry).flatten, ?_⟩
  simp [make_header_content, hcl, List.append_assoc]

/-- Witness for `make_header_content_emits_content_length` on one `foo: bar`
header and three content bytes. -/
theorem make_header_content_emits_content_length_witness :
    ∃ rest : Bytes,
      make_header_content (some [(strToBytes "foo", strToBytes "bar")])
          (check_headers [(strToBytes "foo", strToBytes "bar")])
          (some (strToBytes "123")) false
        = .ok (strToBytes "Content-Length: " ++ natToDecBytes (strToBytes "123").length
            ++ crlf ++ rest) :=
  make_header_content_emits_content_length _ _ (by decide)

/-- C7: one firing of the timeout handler either re-arms the timer for
exactly the remaining delta with no other effect (elapsed still under the
limit), or issues exactly one `.cancel()` call to each of the
stream/handler tasks that is present (none to an absent one) and routes
`RequestTimeout` through the error-response path `write_error` (which closes
the transport).  Cancellation is stated on the cancel-call effect logs
because the slot fields themselves are nulled again when the error write
negotiates keep-alive and runs `cleanup`. -/
theorem connection_timeout_spec (s : HttpProtocol) (now : Int) (o : SendOutcome)
    (r : HTTPResponse) (wnow : Int) :
    (now - s.last_request_time < (s.request_timeout : Int) →
      s.connection_timeout now o r wnow
        = (s, .rearmed ((s.request_timeout : Int) - (now - s.last_request_time)), none)) ∧
    ((s.request_timeout : Int) ≤ now - s.last_request_time →
      (s.connection_timeout now o r wnow).2.1 = .timedOut ∧
      ((s.connection_timeout now o r wnow).1.stream_task_cancel_calls
        = if s.request_stream_task = .noTask then s.stream_task_cancel_calls
          else s.stream_task_cancel_calls + 1) ∧
      ((s.connection_timeout now o r wnow).1.handler_task_cancel_calls
        = if s.request_handler_task = .noTask then s.handler_task_cancel_calls
          else s.handler_task_cancel_calls + 1) ∧
      Exc.requestTimeout ∈ (s.connection_timeout now o r wnow).1.errors ∧
      (s.connection_timeout now o r wnow).1.transport.closed = true) := by
  constructor
  · intro h
    simp [HttpProtocol.connection_timeout, h]
  · intro h
    have h' : ¬(now - s.last_request_time < (s.request_timeout : Int)) := not_lt.mpr h
    cases o <;>
      rcases hst : s.request_stream_task with _ | _ | _ <;>
      rcases hht : s.request_handler_task with _ | _ | _ <;>
      simp [HttpProtocol.connection_timeout, HttpProtocol.write_error, Transport.close,
            send_preserves_logs, h', hst, hht]

/-- Witness for `connection_timeout_spec`: a firing 10 time units in (re-arm
for the remaining 50), and a firing at 100 time units on a connection with
both tasks in flight. -/
theorem connection_timeout_spec_witness :
    (baseState.connection_timeout 10 .success errResponse 10
      = (baseState,
         .rearmed ((baseState.request_timeout : Int) - (10 - baseState.last_request_time)),
         none)) ∧
    ((busyState.connection_timeout 100 .success errResponse 100).2.1 = .timedOut ∧
     ((busyState.connection_timeout 100 .success errResponse 100).1.stream_task_cancel_calls
       = if busyState.request_stream_task = .noTask then busyState.stream_task_cancel_calls
         else busyState.stream_task_cancel_calls + 1) ∧
     ((busyState.connection_timeout 100 .success errResponse 100).1.handler_task_cancel_calls
       = if busyState.request_handler_task = .noTask then busyState.handler_task_cancel_calls
         else busyState.handler_task_cancel_calls + 1) ∧
     Exc.requestTimeout ∈
       (busyState.connection_timeout 100 .success errResponse 100).1.errors ∧
     (busyState.connection_timeout 100 .success errResponse 100).1.transport.closed
       = true) :=
  ⟨(connection_timeout_spec baseState 10 .success errResponse 10).1 (by decide),
   (connection_timeout_spec busyState 100 .success errResponse 100).2 (by decide)⟩

/-- C6 (counterexample): an empty fragment with `more_content = true` is not
framed at all: `send` writes nothing and returns the state unchanged, whereas
the claimed `<hex-length>\r\n<bytes>\r\n` framing would put `0\r\n\r\n` on
the wire. -/
theorem send_chunk_empty_fragment_writes_nothing :
    baseState.send chunkEmpty 0 = (baseState, none) := by
  decide

/-- C6 (amended): a response-chunk message with `more_content = true` and
non-empty content is written as `<hex-length>\r\n<bytes>\r\n` with no other
state change (in particular the closing rules are not applied); an empty
non-final fragment writes nothing; the terminal fragment writes `0\r\n\r\n`
and only then applies the connection's closing rules (`after_write`). -/
theorem send_response_chunk_spec (s : HttpProtocol) (m : Message) (now : Int)
    (c : Bytes) (hst : m.status = none) (hh : m.headers = none)
    (hc : m.content = some c) :
    (m.more_content = true → c ≠ [] →
      s.send m now
        = ({ s with transport :=
              s.transport.write (natToHexBytes c.length ++ crlf ++ c ++ crlf) }, none)) ∧
    (m.more_content = true → c = [] → s.send m now = (s, none)) ∧
    (m.more_content = false →
      s.send m now
        = (HttpProtocol.after_write
            { s with transport := s.transport.write (strToBytes "0\r\n\r\n") }
            false s.keep_alive now, none)) := by
  refine ⟨fun hmc hne => ?_, fun hmc hnil => ?_, fun hmc => ?_⟩
  · have hlen : 0 < c.length := List.length_pos.mpr hne
    simp [HttpProtocol.send, hh, hst, hc, hmc, is_response_chunk, hlen,
          HttpProtocol.after_write]
  · subst hnil
    simp [HttpProtocol.send, hh, hst, hc, hmc, is_response_chunk]
  · simp [HttpProtocol.send, hh, hst, hc, hmc, is_response_chunk]

/-- Witness for `send_response_chunk_spec` on the three concrete chunk
messages. -/
theorem send_response_chunk_spec_witness :
    (baseState.send chunkHi 0
      = ({ baseState with
            transport := baseState.transport.write
              (natToHexBytes (strToBytes "hi").length ++ crlf ++ strToBytes "hi" ++ crlf) },
         none)) ∧
    (baseState.send chunkEmpty 0 = (baseState, none)) ∧
    (baseState.send chunkFinal 0
      = (HttpProtocol.after_write
          { baseState with transport := baseState.transport.write (strToBytes "0\r\n\r\n") }
          false baseState.keep_alive 0, none)) :=
  ⟨(send_response_chunk_spec baseState chunkHi 0 (strToBytes "hi") rfl rfl rfl).1 rfl
     (by decide),
   (send_response_chunk_spec baseState chunkEmpty 0 [] rfl rfl rfl).2.1 rfl rfl,
   (send_response_chunk_spec baseState chunkFinal 0 (strToBytes "hi") rfl rfl rfl).2.2 rfl⟩

/-- C1 (counterexample): a connection whose persistent `_keep_alive` flag is
off (keep-alive disabled in configuration, or revoked by an earlier
response).  For a terminal `200` response with no `Connection: close` header
all four claimed conditions hold — (a) via `check_headers`, (b) signal not
stopped, (c) parser active, (d) parser keep-alive negotiation true — the send
succeeds, and yet the connection is not kept alive: the transport, open
before, is closed afterwards. -/
theorem send_keep_alive_counterexample :
    (check_headers []).connection_close = false ∧
    noKeepAliveState.signal_stopped = false ∧
    noKeepAliveState.parser_active = true ∧
    noKeepAliveState.parser_should_keep_alive = true ∧
    noKeepAliveState.transport.closed = false ∧
    (noKeepAliveState.send okEmptyMsg 0).2 = none ∧
    (noKeepAliveState.send okEmptyMsg 0).1.transport.closed = true := by
  decide

/-- C1 (amended): for every terminal response message carrying `status` and
`headers`, processed by `send` on an open transport, the connection is kept
alive afterwards (transport left open) iff (a) no header named `Connection`
with value `close` appears in the response headers, (b) the shared signal's
stopped flag is false, (c) a parser is active, (d) the parser's own
keep-alive negotiation returns true, and (e) the connection's persistent
keep-alive flag is still true (keep-alive enabled in configuration and not
revoked by an earlier response on this connection). -/
theorem send_keep_alive_iff (s : HttpProtocol) (m : Message) (now : Int)
    (hs : List (Bytes × Bytes)) (st : Nat) (stText : Bytes) (c : Bytes)
    (hst : m.status = some st)
    (htext : ALL_STATUS_CODES.lookup st = some stText)
    (hh : m.headers = some hs)
    (hc : m.content = some c)
    (hmc : m.more_content = false)
    (hopen : s.transport.closed = false) :
    (s.send m now).2 = none ∧
    ((s.send m now).1.transport.closed = false ↔
      ((¬ ∃ kv ∈ hs, kv.1 = bConnection ∧ kv.2 = bclose) ∧
       s.signal_stopped = false ∧ s.parser_active = true ∧
       s.parser_should_keep_alive = true ∧ s.keep_alive_flag = true)) := by
  have hiff : (¬ ∃ kv ∈ hs, kv.1 = bConnection ∧ kv.2 = bclose)
      ↔ (check_headers hs).connection_close = false := by
    simp [← check_headers_connection_close_iff hs]
  rw [hiff]
  obtain ⟨⟨written, closed⟩, kaf, stop, pact, pka, upg, u, hdrs, trs, rms, rto, lrt,
    rst, rht, cc1, cc2, bc, msg, errs⟩ := s
  replace hopen : closed = false := hopen
  subst hopen
  by_cases hcc : (check_headers hs).connection_close = true <;>
    by_cases hcl : (check_headers hs).content_length = true <;>
    cases kaf <;> cases stop <;> cases pact <;> cases pka <;>
    simp [HttpProtocol.send, hh, hst, hc, hmc, is_response_chunk, htext, hcc, hcl,
          make_header_content, HttpProtocol.keep_alive, HttpProtocol.after_write,
          HttpProtocol.cleanup, Transport.write, Transport.close]

/-- Witness for `send_keep_alive_iff` on a live keep-alive connection and a
plain `200` response. -/
theorem send_keep_alive_iff_witness :
    (baseState.send okEmptyMsg 0).2 = none ∧
    ((baseState.send okEmptyMsg 0).1.transport.closed = false ↔
      ((¬ ∃ kv ∈ ([] : List (Bytes × Bytes)), kv.1 = bConnection ∧ kv.2 = bclose) ∧
       baseState.signal_stopped = false ∧ baseState.parser_active = true ∧
       baseState.parser_should_keep_alive = true ∧ baseState.keep_alive_flag = true)) :=
  send_keep_alive_iff baseState okEmptyMsg 0 [] 200 (strToBytes "OK") [] rfl (by decide)
    rfl rfl rfl rfl

end Mach9
